import Mathlib

/-!
Shallow embedding of the libreoffice-env repository.

Sources embedded:
 - `src/utils.py`                        (`CellRef.from_a1`, `CellRef.to_a1`)
 - `src/grader.py`                       (`compare_numeric`, `formulas_match`, `grade_task_run`)
 - `src/evaluation/grader.py`            (same names, threshold differs)
 - `src/orchestration/sandbox_manager.py` (`start_container`, timeout handler, `stop_container`)
 - `src/orchestration/episode_runner.py` (`setup_episode` run-directory numbering)

Conventions:
 - Python numbers in the grading pipeline become exact rationals (`ℚ`).
   IEEE-754 rounding of the binary64 quotient `correct/total` is abstracted
   to exact division; the claims under study only evaluate at ratios far from
   the representability boundary, where float and rational agree.
 - Calls into external libraries are abstracted as parameters:
   `float(s)` becomes a parameter `pf : String → Option ℚ` (with `none` for
   `ValueError`), and the whole sympy equivalence pipeline inside
   `formulas_match` becomes `sy : String → String → Option Bool`
   (`none` for a parse failure, which the source catches and follows with
   the normalized string comparison fallback).
 - Strings are modelled as `String`; Python f-strings become explicit
   concatenation with a decimal rendering function defined below.
-/

namespace LOEnv

/-- ASCII fragment of Python `str.isalpha` (the only characters the embedded
call sites can produce are ASCII). -/
def pyIsAlpha (c : Char) : Bool :=
  (65 ≤ c.toNat && c.toNat ≤ 90) || (97 ≤ c.toNat && c.toNat ≤ 122)

/-- ASCII fragment of Python `str.isdigit`. -/
def pyIsDigit (c : Char) : Bool :=
  48 ≤ c.toNat && c.toNat ≤ 57

/-- ASCII fragment of Python `str.upper` applied to one character. -/
def pyUpper (c : Char) : Char :=
  if 97 ≤ c.toNat && c.toNat ≤ 122 then Char.ofNat (c.toNat - 32) else c

/-- ASCII fragment of the whitespace class stripped by Python `str.strip()`:
space, tab, newline, carriage return, vertical tab, form feed. -/
def pyIsSpace (c : Char) : Bool :=
  c.toNat = 32 || c.toNat = 9 || c.toNat = 10 ||
  c.toNat = 13 || c.toNat = 11 || c.toNat = 12

/-- Python `str.strip()` with no argument: remove leading and trailing
whitespace. -/
def pyStrip (s : String) : String :=
  String.mk (((s.data.dropWhile pyIsSpace).reverse.dropWhile pyIsSpace).reverse)

/-- Decimal digit characters of `n`, most significant first (empty for 0).
Used to model Python decimal rendering of integers inside f-strings. -/
def natDigits (n : Nat) : List Char :=
  if h : n = 0 then [] else
    natDigits (n / 10) ++ [Char.ofNat (48 + n % 10)]
termination_by n
decreasing_by
  exact Nat.div_lt_self (Nat.pos_of_ne_zero h) (by omega)

/-- Decimal rendering of a natural number (Python `str(n)` / `f"{n}"`). -/
def natStr (n : Nat) : String :=
  if n = 0 then "0" else String.mk (natDigits n)

/-- Decimal rendering of an integer (Python `f"{i}"`). -/
def intStr (i : Int) : String :=
  if i < 0 then "-" ++ natStr i.natAbs else natStr i.natAbs

/-- Value of a list of decimal digit characters, as read by Python `int(s)`
on a string of digits (most significant first). -/
def digitsVal (ds : List Char) : Nat :=
  ds.foldl (fun a c => a * 10 + (c.toNat - 48)) 0

/-- Value of a column-letter string as computed by `CellRef.from_a1`:
`for i, char in enumerate(reversed(col_letter)): col_num += (ord(char) - ord('A') + 1) * 26**i`.
The head of the list is the most significant letter, at distance
`cs.length` from the end, hence weight `26 ^ cs.length`. -/
def lettersVal : List Char → Nat
  | [] => 0
  | c :: cs => lettersVal cs + (c.toNat - 65 + 1) * 26 ^ cs.length

/-- Model of `src/utils.py` `CellRef`: a spreadsheet cell reference, 0-indexed.
Fields are `Int` because the Python subtraction `- 1` can go below zero on
degenerate inputs. -/
structure CellRef where
  row : Int
  col : Int
deriving Repr, DecidableEq

namespace CellRef

/-- Embedding of `CellRef.from_a1` from `src/utils.py`:
letters are filtered out of the string and upper-cased, digits are filtered
out and parsed with `int`; returns `none` when the digit part is empty
(where Python `int('')` raises `ValueError`). -/
def from_a1 (cell : String) : Option CellRef :=
  let col_letter := (cell.data.filter pyIsAlpha).map pyUpper
  let digits := cell.data.filter pyIsDigit
  if digits = [] then none
  else
    let row_num : Int := (digitsVal digits : Int) - 1
    let col_num : Int := (lettersVal col_letter : Int) - 1
    some ⟨row_num, col_num⟩

/-- The `while col > 0` loop of `CellRef.to_a1`: repeatedly
`col -= 1; col_letter = chr(65 + col % 26) + col_letter; col //= 26`.
Characters produced by later iterations are prepended, i.e. the recursive
call's output comes first. -/
def colLetters (col : Nat) : List Char :=
  if h : col = 0 then [] else
    let c := col - 1
    colLetters (c / 26) ++ [Char.ofNat (65 + c % 26)]
termination_by col
decreasing_by
  exact Nat.lt_of_le_of_lt (Nat.div_le_self _ _)
    (Nat.sub_lt (Nat.pos_of_ne_zero h) (by omega))

/-- Embedding of `CellRef.to_a1` from `src/utils.py`: `f"{col_letter}{self.row + 1}"`,
where the letter part is built by the `while col > 0` loop starting from
`self.col + 1` (the loop body never runs when that start value is ≤ 0). -/
def to_a1 (r : CellRef) : String :=
  String.mk (colLetters (r.col + 1).toNat ++ (intStr (r.row + 1)).data)

end CellRef

/-! ## Grading engine

Two source files define a grading engine with identical `read_ods_data`,
`compare_numeric` and cell-comparison loops: `src/grader.py` (imported by
`src/orchestration/episode_runner.py` and `src/mcp_server.py`) and
`src/evaluation/grader.py`.  They differ only in the pass/fail threshold
and the feedback strings, so the shared parts are defined once and the
divergent tails live in namespaces `Grader` and `EvalGrader`. -/

/-- One spreadsheet cell as produced by `read_ods_data`:
`(value, formula)`, with `""` for a missing formula. -/
abbrev Cell := String × String

/-- The per-sheet grid of one parsed document: insertion-ordered mapping
from sheet name to rows of cells (a Python `dict`, whose keys are distinct
and iterate in insertion order). -/
abbrev Sheets := List (String × List (List Cell))

/-- The fields of a loaded task definition that the grader reads:
`task_def.get("expected_outputs", [])` and `task_def.get("mode", "tool_use")`
(`mode := none` models an absent key). -/
structure TaskDef where
  expected_outputs : List String
  mode : Option String
deriving Repr, DecidableEq

/-- What the grader observes about one oracle path from
`tm.get_oracle_files(task_id)`: whether `oracle_file.exists()` and the
outcome of `read_ods_data(oracle_file)` (`Except.error e` models a raised
exception with text `e`). -/
structure OracleFile where
  present : Bool
  parse : Except String Sheets

/-- The environment a `grade_task_run(task_id, run_dir, tolerance)` call runs
against, with filesystem and task-storage effects reified:
`loadTask` is `tm.load_task(task_id)` (which may raise, e.g.
`FileNotFoundError`), `getOracleFiles` is `tm.get_oracle_files(task_id)`,
`outputPresent name` is `(run_dir / name).exists()`, and
`outputParse name` is `read_ods_data(run_dir / name)`. -/
structure GradeEnv where
  loadTask : Except String TaskDef
  getOracleFiles : Except String (List (String × OracleFile))
  outputPresent : String → Bool
  outputParse : String → Except String Sheets

/-- Embedding of `compare_numeric(value1, value2, tolerance)`, identical in both grader
files.  `pf` abstracts Python `float(·)` (`none` = `ValueError`, whereupon
the source falls back to `value1.strip() == value2.strip()`, embedded as `pyStrip`). -/
def compare_numeric (pf : String → Option ℚ) (value1 value2 : String)
    (tolerance : ℚ) : Bool :=
  match pf value1, pf value2 with
  | some num1, some num2 =>
      if num2 = 0 then decide (|num1 - num2| < tolerance)
      else decide (|(num1 - num2) / num2| < tolerance)
  | _, _ => pyStrip value1 == pyStrip value2

/-- The string normalization of the `formulas_match` fallback:
`formula.replace(" ", "").replace("=", "").upper()`. -/
def normFormula (f : String) : String :=
  String.mk (((f.data.filter (fun c => c ≠ ' ')).filter (fun c => c ≠ '=')).map pyUpper)

/-- Embedding of `formulas_match(formula1, formula2)`, identical in both grader files.
`sy` abstracts the whole sympy pipeline (strip `=`, lower-case the cell
references, `parse_expr` both sides, `simplify(expr1 - expr2) == 0`);
`sy f1 f2 = none` models any exception in that pipeline, which the source
catches before comparing the normalized strings. -/
def formulas_match (sy : String → String → Option Bool)
    (formula1 formula2 : String) : Bool :=
  match sy formula1 formula2 with
  | some b => b
  | none => normFormula formula1 == normFormula formula2

/-- Accumulator of the grading loops: `total_cells`, `correct_cells`,
`errors` (appended in program order). -/
structure GradeAcc where
  total : Nat
  correct : Nat
  errors : List String
deriving Repr, DecidableEq

/-- Rendering of `chr(65 + col_idx)` as a one-character string. -/
def colLetterStr (colIdx : Nat) : String :=
  String.mk [Char.ofNat (65 + colIdx)]

/-- Innermost loop body, one oracle cell at `(row_idx, col_idx)`:
skip cells whose oracle value and formula are both blank, otherwise count
the cell and compare against `output_row[col_idx]`. -/
def gradeCell (pf : String → Option ℚ) (sy : String → String → Option Bool)
    (tolerance : ℚ) (sheetName : String) (rowIdx : Nat)
    (outputRow : List Cell) (acc : GradeAcc) (ic : Nat × Cell) : GradeAcc :=
  let colIdx := ic.1
  let oracle_value := ic.2.1
  let oracle_formula := ic.2.2
  if pyStrip oracle_value = "" ∧ pyStrip oracle_formula = "" then acc
  else
    let acc := { acc with total := acc.total + 1 }
    if h : outputRow.length ≤ colIdx then
      { acc with errors := acc.errors ++
          ["Cell " ++ sheetName ++ "!" ++ colLetterStr colIdx ++ natStr (rowIdx + 1)
            ++ " missing"] }
    else
      let oc := outputRow.get ⟨colIdx, by omega⟩
      let output_value := oc.1
      let output_formula := oc.2
      if output_formula ≠ "" then
        if oracle_formula ≠ "" then
          if formulas_match sy output_formula oracle_formula then
            { acc with correct := acc.correct + 1 }
          else
            { acc with errors := acc.errors ++
                [sheetName ++ "!" ++ colLetterStr colIdx ++ natStr (rowIdx + 1)
                  ++ ": formula mismatch: expected '" ++ oracle_formula
                  ++ "', got '" ++ output_formula ++ "'"] }
        else
          { acc with errors := acc.errors ++
              [sheetName ++ "!" ++ colLetterStr colIdx ++ natStr (rowIdx + 1)
                ++ ": expected value '" ++ oracle_value
                ++ "', got formula '" ++ output_formula ++ "'"] }
      else if compare_numeric pf output_value oracle_value tolerance then
        { acc with correct := acc.correct + 1 }
      else
        { acc with errors := acc.errors ++
            [sheetName ++ "!" ++ colLetterStr colIdx ++ natStr (rowIdx + 1)
              ++ ": expected '" ++ oracle_value
              ++ "', got '" ++ output_value ++ "'"] }

/-- Row loop body: a reference row with no matching output row (index out of
range) records one error and charges `len(oracle_row)` cells. -/
def gradeRow (pf : String → Option ℚ) (sy : String → String → Option Bool)
    (tolerance : ℚ) (sheetName : String) (outputRows : List (List Cell))
    (acc : GradeAcc) (ir : Nat × List Cell) : GradeAcc :=
  let rowIdx := ir.1
  let oracleRow := ir.2
  if outputRows.length ≤ rowIdx then
    { acc with
        errors := acc.errors ++
          ["Sheet '" ++ sheetName ++ "' row " ++ natStr (rowIdx + 1) ++ " missing"],
        total := acc.total + oracleRow.length }
  else
    let outputRow := outputRows.getD rowIdx []
    oracleRow.enum.foldl (gradeCell pf sy tolerance sheetName rowIdx outputRow) acc

/-- Sheet loop body: a reference sheet missing from the output charges every
reference cell (`sum(len(row) for row in oracle_rows)`). -/
def gradeSheet (pf : String → Option ℚ) (sy : String → String → Option Bool)
    (tolerance : ℚ) (outputData : Sheets) (acc : GradeAcc)
    (sheet : String × List (List Cell)) : GradeAcc :=
  let sheetName := sheet.1
  let oracleRows := sheet.2
  match outputData.lookup sheetName with
  | none =>
      { acc with
          errors := acc.errors ++ ["Sheet '" ++ sheetName ++ "' missing from output"],
          total := acc.total + (oracleRows.map List.length).sum }
  | some outputRows =>
      oracleRows.enum.foldl (gradeRow pf sy tolerance sheetName outputRows) acc

/-- File loop body of `grade_task_run`: missing output file records an error
and skips; missing oracle entry or oracle path skips silently (warning only);
a parse exception on either document records one error and skips. -/
def gradeFile (pf : String → Option ℚ) (sy : String → String → Option Bool)
    (tolerance : ℚ) (env : GradeEnv)
    (oracleFiles : List (String × OracleFile)) (acc : GradeAcc)
    (expectedFilename : String) : GradeAcc :=
  if env.outputPresent expectedFilename = false then
    { acc with errors := acc.errors ++ ["Output file missing: " ++ expectedFilename] }
  else
    match oracleFiles.lookup expectedFilename with
    | none => acc
    | some oracleFile =>
        if oracleFile.present = false then acc
        else
          match env.outputParse expectedFilename, oracleFile.parse with
          | Except.error e, _ =>
              { acc with errors := acc.errors ++
                  ["Failed to parse " ++ expectedFilename ++ ": " ++ e] }
          | Except.ok _, Except.error e =>
              { acc with errors := acc.errors ++
                  ["Failed to parse " ++ expectedFilename ++ ": " ++ e] }
          | Except.ok outputData, Except.ok oracleData =>
              oracleData.foldl (gradeSheet pf sy tolerance outputData) acc

/-- The whole comparison loop of `grade_task_run`, from
`total_cells = 0; correct_cells = 0; errors = []` to the end of the
`for expected_filename in expected_outputs` loop. -/
def gradeCounts (pf : String → Option ℚ) (sy : String → String → Option Bool)
    (tolerance : ℚ) (env : GradeEnv) (expected_outputs : List String)
    (oracleFiles : List (String × OracleFile)) : GradeAcc :=
  expected_outputs.foldl (gradeFile pf sy tolerance env oracleFiles) ⟨0, 0, []⟩

/-- Python `round(q, 3)`: scale by 1000 and round half-to-even (the source
rounds the binary64 value; the claims under study never sit on a tie or on a
float/rational disagreement at 3 decimal places). -/
def pyRound3 (q : ℚ) : ℚ :=
  let scaled := q * 1000
  let fl : ℤ := ⌊scaled⌋
  let frac := scaled - fl
  let r : ℤ :=
    if frac > 1/2 then fl + 1
    else if frac < 1/2 then fl
    else if fl % 2 = 0 then fl else fl + 1
  (r : ℚ) / 1000

/-- The result dictionary of `grade_task_run`.  `details` carries
`(total_cells, correct_cells, errors)` when present; `errorMsg` is the
`"error"` key of the exception branch. -/
structure GradeResult where
  passed : Bool
  score : ℚ
  feedback : String
  details : Option (Nat × Nat × List String) := none
  errorMsg : Option String := none
deriving Repr, DecidableEq

/-- Feedback suffix `". Errors: " + "; ".join(errors[:5])` plus the overflow count,
appended to the feedback when `errors` is nonempty (identical in both
grader files). -/
def errorSuffix (errors : List String) : String :=
  if errors = [] then ""
  else
    let s := ". Errors: " ++ String.intercalate "; " (errors.take 5)
    if 5 < errors.length then
      s ++ " (and " ++ natStr (errors.length - 5) ++ " more)"
    else s

namespace Grader

/-- Tail of `src/grader.py:grade_task_run` from `if total_cells == 0:` to the
result dictionary: pass requires an exact 100% score for every task. -/
def finalize (total correct : Nat) (errors : List String) : GradeResult :=
  if total = 0 then
    { passed := false, score := pyRound3 0,
      feedback := "No cells to grade - missing oracle or outputs",
      details := some (total, correct, errors) }
  else
    let score : ℚ := (correct : ℚ) / (total : ℚ)
    let passed := decide (score = 1)
    let feedback :=
      if passed then
        "Perfect! All " ++ natStr correct ++ "/" ++ natStr total ++ " cells correct"
      else
        "Failed: " ++ natStr correct ++ "/" ++ natStr total
          ++ " cells correct (100% required)"
    { passed := passed, score := pyRound3 score,
      feedback := feedback ++ errorSuffix errors,
      details := some (total, correct, errors) }

/-- Body of the outer `try:` of `src/grader.py:grade_task_run`; a raised
exception is an `Except.error` carrying its text. -/
def gradeBody (pf : String → Option ℚ) (sy : String → String → Option Bool)
    (env : GradeEnv) (tolerance : ℚ) : Except String GradeResult := do
  let task_def ← env.loadTask
  let oracle_files ← env.getOracleFiles
  let expected_outputs := task_def.expected_outputs
  if expected_outputs = [] then
    return { passed := true, score := 1, feedback := "No expected outputs defined" }
  let acc := gradeCounts pf sy tolerance env expected_outputs oracle_files
  return finalize acc.total acc.correct acc.errors

/-- Embedding of `src/grader.py:grade_task_run`: the `except Exception` boundary turns any
raised exception into a failed zero-score result. -/
def grade_task_run (pf : String → Option ℚ) (sy : String → String → Option Bool)
    (env : GradeEnv) (tolerance : ℚ) : GradeResult :=
  match gradeBody pf sy env tolerance with
  | Except.ok r => r
  | Except.error e =>
      { passed := false, score := 0, feedback := "Grading error: " ++ e,
        errorMsg := some e }

end Grader

namespace EvalGrader

/-- Tail of `src/evaluation/grader.py:grade_task_run` from
`if total_cells == 0:`: the pass threshold depends on
`task_def.get('mode', 'tool_use')` — `computer_use` requires `score == 1.0`,
anything else requires `score >= 0.9`. -/
def finalize (task_mode : String) (total correct : Nat) (errors : List String) :
    GradeResult :=
  if total = 0 then
    { passed := false, score := pyRound3 0,
      feedback := "No cells to grade - missing oracle or outputs",
      details := some (total, correct, errors) }
  else
    let score : ℚ := (correct : ℚ) / (total : ℚ)
    let passed :=
      if task_mode = "computer_use" then decide (score = 1)
      else decide (9/10 ≤ score)
    let threshold_desc :=
      if task_mode = "computer_use" then "100% required for computer_use"
      else "90% threshold"
    let feedback :=
      "Correct: " ++ natStr correct ++ "/" ++ natStr total
        ++ " cells (" ++ threshold_desc ++ ")"
    { passed := passed, score := pyRound3 score,
      feedback := feedback ++ errorSuffix errors,
      details := some (total, correct, errors) }

/-- Body of the outer `try:` of `src/evaluation/grader.py:grade_task_run`. -/
def gradeBody (pf : String → Option ℚ) (sy : String → String → Option Bool)
    (env : GradeEnv) (tolerance : ℚ) : Except String GradeResult := do
  let task_def ← env.loadTask
  let oracle_files ← env.getOracleFiles
  let expected_outputs := task_def.expected_outputs
  if expected_outputs = [] then
    return { passed := true, score := 1, feedback := "No expected outputs defined" }
  let acc := gradeCounts pf sy tolerance env expected_outputs oracle_files
  return finalize (task_def.mode.getD "tool_use") acc.total acc.correct acc.errors

/-- Embedding of `src/evaluation/grader.py:grade_task_run` with its `except Exception`
boundary. -/
def grade_task_run (pf : String → Option ℚ) (sy : String → String → Option Bool)
    (env : GradeEnv) (tolerance : ℚ) : GradeResult :=
  match gradeBody pf sy env tolerance with
  | Except.ok r => r
  | Except.error e =>
      { passed := false, score := 0, feedback := "Grading error: " ++ e,
        errorMsg := some e }

end EvalGrader

/-! ## Sandbox manager (`src/orchestration/sandbox_manager.py`)

The manager's mutable fields (`self.container`, `self.container_id`,
`self.timeout_timer`, `self.timed_out`) become a state record, and the three
code paths that mutate them — `start_container`, the `timeout_handler`
closure armed by `threading.Timer`, and `stop_container` — become state
transformers.  Events are interleaved atomically (the `threading.Timer`
callback runs on its own thread; the serialized event semantics captures
every interleaving in which handler and `stop` do not overlap
instruction-by-instruction).  A ghost counter `kills` counts calls to
`self.container.kill()`, which occur only inside the timeout handler. -/

/-- The handle to the running (or killed) docker container: we track only
whether the underlying process is still running. -/
structure ContainerH where
  running : Bool
deriving Repr, DecidableEq

/-- The mutable state of one `SandboxManager` instance.
`timerArmed` is true while `self.timeout_timer` holds a pending
`threading.Timer` that has neither fired nor been cancelled. -/
structure SMState where
  container : Option ContainerH
  container_id : Option String
  timerArmed : Bool
  timed_out : Bool
  kills : Nat
deriving Repr, DecidableEq

namespace SMState

/-- A freshly constructed manager (`__init__`). -/
def init : SMState :=
  { container := none, container_id := none, timerArmed := false,
    timed_out := false, kills := 0 }

end SMState

/-- The `timeout_handler` closure, run when the armed timer fires:
`self.timed_out = True; if self.container is not None: self.container.kill()`.
A `threading.Timer` fires at most once, so the timer is consumed.  Note the
handler does NOT clear `self.container` or `self.container_id`. -/
def timerFire (s : SMState) : SMState :=
  if s.timerArmed then
    let s := { s with timerArmed := false, timed_out := true }
    match s.container with
    | some c => { s with container := some { c with running := false },
                         kills := s.kills + 1 }
    | none => s
  else s

/-- Embedding of `stop_container(timeout)`: cancel any pending timer, return if no
container, otherwise `try: container.stop(timeout); container.remove()`
(`DockerException` caught and logged) and in `finally:` clear
`self.container`, `self.container_id` and reset `self.timed_out`.
`stopRaises` / `removeRaises` say whether `container.stop()` resp.
`container.remove()` raise; the `finally:` block runs in every case.
`container.stop` is docker's graceful stop (SIGTERM, then SIGKILL after the
grace period) and a no-op on an already-exited container; it is not the
watchdog's `kill()`, so the ghost counter is untouched. -/
def stop_container (stopRaises removeRaises : Bool) (s : SMState) : SMState :=
  let s := { s with timerArmed := false }
  match s.container with
  | none => s
  | some _ =>
      { s with container := none, container_id := none, timed_out := false }

/-- Embedding of `start_container(..., timeout_seconds)`: an already-running container is
stopped first; a new running container and id are installed; the watchdog is
armed only `if timeout_seconds is not None and timeout_seconds > 0`. -/
def start_container (cid : String) (timeout_seconds : Option Int)
    (s : SMState) : SMState :=
  let s := if s.container.isSome then stop_container false false s else s
  let s := { s with container := some { running := true }, container_id := some cid }
  match timeout_seconds with
  | some t => if 0 < t then { s with timerArmed := true } else s
  | none => s

/-- Events of one manager instance, for trace statements. -/
inductive SMEvent where
  | start (cid : String) (timeout_seconds : Option Int)
  | fire
  | stop (stopRaises removeRaises : Bool)
deriving Repr, DecidableEq

/-- One event step. -/
def smStep (s : SMState) : SMEvent → SMState
  | SMEvent.start cid t => start_container cid t s
  | SMEvent.fire => timerFire s
  | SMEvent.stop f g => stop_container f g s

/-- Run a trace of events from a state. -/
def smRun (s : SMState) (es : List SMEvent) : SMState :=
  es.foldl smStep s

/-! ## Episode runner run-directory numbering
(`src/orchestration/episode_runner.py:setup_episode`)

The runs directory becomes a map from task id to the ordered list of
subdirectory names of `runs/<task_id>` (entries that are not directories are
not modelled: `iterdir` results are filtered with `is_dir()` and only the
count of directories is read). -/

/-- Python `f"{n:03d}"` for a natural number: pad with zeros to width 3. -/
def pad3 (n : Nat) : String :=
  let s := natStr n
  if 3 ≤ s.length then s
  else String.mk (List.replicate (3 - s.length) '0') ++ s

/-- Embedding of the `setup_episode` directory allocation:
`existing = [d for d in task_runs.iterdir() if d.is_dir()]`,
`episode_num = len(existing) + 1`,
`run_dir = runs_dir / task_id / f"run_{episode_num:03d}"`,
`run_dir.mkdir(parents=True, exist_ok=True)` (no new entry when the name
already exists).  Returns the episode number and the updated filesystem. -/
def setup_episode (dirs : String → List String) (task_id : String) :
    Nat × (String → List String) :=
  let existing := dirs task_id
  let episode_num := existing.length + 1
  let name := "run_" ++ pad3 episode_num
  let newDirs := if existing.contains name then existing else existing ++ [name]
  (episode_num, fun t => if t = task_id then newDirs else dirs t)

/-! ## Concrete instantiations used to evaluate the embedding -/

/-- A concrete instantiation of the abstracted `float(·)`: parses
nonnegative decimal integer literals (a sub-grammar of Python floats),
used to evaluate the embedding at concrete inputs. -/
def intFloat (s : String) : Option ℚ :=
  if s.data ≠ [] ∧ s.data.all pyIsDigit then some (digitsVal s.data) else none

/-- A concrete instantiation of the abstracted sympy pipeline in which
`parse_expr` always raises, so `formulas_match` always takes its
string-comparison fallback. -/
def noSympy : String → String → Option Bool := fun _ _ => none

/-- A grading environment for a task with no expected outputs. -/
def envNoOutputs : GradeEnv :=
  { loadTask := Except.ok { expected_outputs := [], mode := none },
    getOracleFiles := Except.ok [],
    outputPresent := fun _ => true,
    outputParse := fun _ => Except.error "garbage in run directory" }

/-- A grading environment whose single expected output file is absent from
the run directory (so no cell is ever counted). -/
def envMissingOutput : GradeEnv :=
  { loadTask := Except.ok { expected_outputs := ["report.ods"], mode := none },
    getOracleFiles := Except.ok [],
    outputPresent := fun _ => false,
    outputParse := fun _ => Except.error "missing" }

/-- A grading environment where loading the task definition raises. -/
def envTaskError : GradeEnv :=
  { loadTask := Except.error "Task not found: banking_001",
    getOracleFiles := Except.ok [],
    outputPresent := fun _ => false,
    outputParse := fun _ => Except.error "missing" }

/-- A grading environment where the task loads but listing the oracle files
raises. -/
def envOracleError : GradeEnv :=
  { loadTask := Except.ok { expected_outputs := ["report.ods"], mode := none },
    getOracleFiles := Except.error "Permission denied: oracle",
    outputPresent := fun _ => true,
    outputParse := fun _ => Except.error "missing" }

/-- Oracle sheet with ten nonempty numeric value cells. -/
def oracleTen : Sheets :=
  [("Sheet1", [[("1", ""), ("2", ""), ("3", ""), ("4", ""), ("5", ""),
               ("6", ""), ("7", ""), ("8", ""), ("9", ""), ("10", "")]])]

/-- Output sheet matching `oracleTen` in nine of ten cells. -/
def outputNine : Sheets :=
  [("Sheet1", [[("1", ""), ("2", ""), ("3", ""), ("4", ""), ("5", ""),
               ("6", ""), ("7", ""), ("8", ""), ("9", ""), ("999", "")]])]

/-- A grading environment for a tool-mode task whose run scores exactly
9/10: ten scorable oracle cells, nine matched by the output. -/
def envToolNinety : GradeEnv :=
  { loadTask := Except.ok { expected_outputs := ["out.ods"], mode := some "tool_use" },
    getOracleFiles := Except.ok
      [("out.ods", { present := true, parse := Except.ok oracleTen })],
    outputPresent := fun _ => true,
    outputParse := fun n =>
      if n = "out.ods" then Except.ok outputNine else Except.error "missing" }

/-- A well-formed A1 cell reference: a string in the image of `to_a1` on
genuine (nonnegative, 0-indexed) cell coordinates — nonempty uppercase
column letters followed by a decimal row number ≥ 1 with no leading zeros. -/
def WellFormedA1 (r : String) : Prop :=
  ∃ row col : Int, 0 ≤ row ∧ 0 ≤ col ∧ CellRef.to_a1 ⟨row, col⟩ = r

/-! ## Claim theorems -/

/-- Claim C3: for every task id and run directory (here: every grading
environment, tolerance, and parser behaviour), `grade_task_run` never lets a
failure escape its boundary.  Whenever the body inside the outer `try:`
raises an exception with text `e` — in the embedding, `gradeBody` returns
`Except.error e`, which happens exactly when one of its two fallible calls,
`tm.load_task` or `tm.get_oracle_files`, raises — both graders return a
well-formed result with `passed = false`, `score = 0.0` and feedback carrying
the error text.  The first two conjuncts are unconditional in the failure
source; the last two instantiate them at each boundary call. -/
theorem grade_absorbs_errors (pf : String → Option ℚ)
    (sy : String → String → Option Bool) (env : GradeEnv) (tolerance : ℚ)
    (e : String) (td : TaskDef) :
    (Grader.gradeBody pf sy env tolerance = Except.error e →
      Grader.grade_task_run pf sy env tolerance =
        { passed := false, score := 0, feedback := "Grading error: " ++ e,
          errorMsg := some e }) ∧
    (EvalGrader.gradeBody pf sy env tolerance = Except.error e →
      EvalGrader.grade_task_run pf sy env tolerance =
        { passed := false, score := 0, feedback := "Grading error: " ++ e,
          errorMsg := some e }) ∧
    (env.loadTask = Except.error e →
      Grader.grade_task_run pf sy env tolerance =
        { passed := false, score := 0, feedback := "Grading error: " ++ e,
          errorMsg := some e } ∧
      EvalGrader.grade_task_run pf sy env tolerance =
        { passed := false, score := 0, feedback := "Grading error: " ++ e,
          errorMsg := some e }) ∧
    (env.loadTask = Except.ok td → env.getOracleFiles = Except.error e →
      Grader.grade_task_run pf sy env tolerance =
        { passed := false, score := 0, feedback := "Grading error: " ++ e,
          errorMsg := some e } ∧
      EvalGrader.grade_task_run pf sy env tolerance =
        { passed := false, score := 0, feedback := "Grading error: " ++ e,
          errorMsg := some e }) := by
  refine ⟨fun h => ?_, fun h => ?_, fun hload => ⟨?_, ?_⟩,
    fun hload horacle => ⟨?_, ?_⟩⟩
  · simp [Grader.grade_task_run, h]
  · simp [EvalGrader.grade_task_run, h]
  · simp [Grader.grade_task_run, Grader.gradeBody, hload, Bind.bind, Except.bind]
  · simp [EvalGrader.grade_task_run, EvalGrader.gradeBody, hload, Bind.bind,
      Except.bind]
  · simp [Grader.grade_task_run, Grader.gradeBody, hload, horacle, Bind.bind,
      Except.bind]
  · simp [EvalGrader.grade_task_run, EvalGrader.gradeBody, hload, horacle,
      Bind.bind, Except.bind]

/-- Witness for C3 at two concrete environments, one per boundary failure:
the task load raising, and the oracle listing raising after a successful
load. -/
theorem grade_absorbs_errors_witness :
    (Grader.grade_task_run intFloat noSympy envTaskError (1/100) =
      { passed := false, score := 0,
        feedback := "Grading error: Task not found: banking_001",
        errorMsg := some "Task not found: banking_001" } ∧
     EvalGrader.grade_task_run intFloat noSympy envTaskError (1/100) =
      { passed := false, score := 0,
        feedback := "Grading error: Task not found: banking_001",
        errorMsg := some "Task not found: banking_001" }) ∧
    (Grader.grade_task_run intFloat noSympy envOracleError (1/100) =
      { passed := false, score := 0,
        feedback := "Grading error: Permission denied: oracle",
        errorMsg := some "Permission denied: oracle" } ∧
     EvalGrader.grade_task_run intFloat noSympy envOracleError (1/100) =
      { passed := false, score := 0,
        feedback := "Grading error: Permission denied: oracle",
        errorMsg := some "Permission denied: oracle" }) :=
  ⟨(grade_absorbs_errors intFloat noSympy envTaskError (1/100)
      "Task not found: banking_001"
      { expected_outputs := [], mode := none }).2.2.1 rfl,
   (grade_absorbs_errors intFloat noSympy envOracleError (1/100)
      "Permission denied: oracle"
      { expected_outputs := ["report.ods"], mode := none }).2.2.2 rfl rfl⟩

/-- Claim C5: when the loaded task definition declares no expected-output
files, both graders return a trivial pass (`passed = true`, `score = 1.0`)
regardless of the run directory's contents (the environment's
`outputPresent`/`outputParse` fields are unconstrained). -/
theorem grade_no_expected_outputs (pf : String → Option ℚ)
    (sy : String → String → Option Bool) (env : GradeEnv) (tolerance : ℚ)
    (td : TaskDef) (ofs : List (String × OracleFile))
    (h1 : env.loadTask = Except.ok td)
    (h2 : env.getOracleFiles = Except.ok ofs)
    (h3 : td.expected_outputs = []) :
    Grader.grade_task_run pf sy env tolerance =
      { passed := true, score := 1, feedback := "No expected outputs defined" } ∧
    EvalGrader.grade_task_run pf sy env tolerance =
      { passed := true, score := 1, feedback := "No expected outputs defined" } := by
  constructor
  · simp [Grader.grade_task_run, Grader.gradeBody, h1, h2, h3, Bind.bind, Except.bind, Pure.pure, Except.pure]
  · simp [EvalGrader.grade_task_run, EvalGrader.gradeBody, h1, h2, h3, Bind.bind, Except.bind, Pure.pure, Except.pure]

/-- Witness for C5: a concrete task with `expected_outputs = []` graded over
a run directory whose every file is unreadable. -/
theorem grade_no_expected_outputs_witness :
    Grader.grade_task_run intFloat noSympy envNoOutputs (1/100) =
      { passed := true, score := 1, feedback := "No expected outputs defined" } ∧
    EvalGrader.grade_task_run intFloat noSympy envNoOutputs (1/100) =
      { passed := true, score := 1, feedback := "No expected outputs defined" } :=
  grade_no_expected_outputs intFloat noSympy envNoOutputs (1/100)
    { expected_outputs := [], mode := none } [] rfl rfl rfl

/-- Claim C6: with at least one declared expected output, a run in which the
comparison loop finds no scorable cell (`total_cells = 0`) is forced to fail
with score 0.0 in both graders — absence of oracle data is never a pass. -/
theorem grade_no_cells_fails (pf : String → Option ℚ)
    (sy : String → String → Option Bool) (env : GradeEnv) (tolerance : ℚ)
    (td : TaskDef) (ofs : List (String × OracleFile))
    (h1 : env.loadTask = Except.ok td)
    (h2 : env.getOracleFiles = Except.ok ofs)
    (h3 : td.expected_outputs ≠ [])
    (h4 : (gradeCounts pf sy tolerance env td.expected_outputs ofs).total = 0) :
    (Grader.grade_task_run pf sy env tolerance).passed = false ∧
    (Grader.grade_task_run pf sy env tolerance).score = 0 ∧
    (EvalGrader.grade_task_run pf sy env tolerance).passed = false ∧
    (EvalGrader.grade_task_run pf sy env tolerance).score = 0 := by
  have hG : Grader.grade_task_run pf sy env tolerance =
      Grader.finalize 0 (gradeCounts pf sy tolerance env td.expected_outputs ofs).correct
        (gradeCounts pf sy tolerance env td.expected_outputs ofs).errors := by
    simp [Grader.grade_task_run, Grader.gradeBody, h1, h2, h3, h4, Bind.bind, Except.bind, Pure.pure, Except.pure]
  have hE : EvalGrader.grade_task_run pf sy env tolerance =
      EvalGrader.finalize (td.mode.getD "tool_use") 0
        (gradeCounts pf sy tolerance env td.expected_outputs ofs).correct
        (gradeCounts pf sy tolerance env td.expected_outputs ofs).errors := by
    simp [EvalGrader.grade_task_run, EvalGrader.gradeBody, h1, h2, h3, h4, Bind.bind, Except.bind, Pure.pure, Except.pure]
  rw [hG, hE]
  refine ⟨?_, ?_, ?_, ?_⟩ <;> simp [Grader.finalize, EvalGrader.finalize, pyRound3]

/-- Witness for C6: a task declaring one expected output that is missing
from the run directory, so the loop counts zero scorable cells. -/
theorem grade_no_cells_fails_witness :
    (gradeCounts intFloat noSympy (1/100) envMissingOutput ["report.ods"] []).total = 0 ∧
    ((Grader.grade_task_run intFloat noSympy envMissingOutput (1/100)).passed = false ∧
     (Grader.grade_task_run intFloat noSympy envMissingOutput (1/100)).score = 0 ∧
     (EvalGrader.grade_task_run intFloat noSympy envMissingOutput (1/100)).passed = false ∧
     (EvalGrader.grade_task_run intFloat noSympy envMissingOutput (1/100)).score = 0) :=
  ⟨rfl, grade_no_cells_fails intFloat noSympy envMissingOutput (1/100)
    { expected_outputs := ["report.ods"], mode := none } [] rfl rfl (by decide) rfl⟩

/-- Claim C1 (counterexample): the grader actually invoked on graded runs
(`src/grader.py:grade_task_run`, imported by
`orchestration/episode_runner.py` and `mcp_server.py`) fails a tool-mode run
scoring exactly 0.90 — its pass condition is `score == 1.0` for every task
mode, so the claimed mode-dependent threshold does not hold for it. -/
theorem tool_mode_ninety_fails_counterexample :
    (Grader.grade_task_run intFloat noSympy envToolNinety (1/100)).passed = false ∧
    (Grader.grade_task_run intFloat noSympy envToolNinety (1/100)).score = 9/10 ∧
    (Grader.grade_task_run intFloat noSympy envToolNinety (1/100)).details =
      some (10, 9, ["Sheet1!J1: expected '10', got '999'"]) ∧
    envToolNinety.loadTask =
      Except.ok { expected_outputs := ["out.ods"], mode := some "tool_use" } := by
  refine ⟨?_, ?_, ?_, rfl⟩ <;> with_unfolding_all decide

/-- Claim C1 (amended): the mode-dependent threshold holds for
`src/evaluation/grader.py:grade_task_run` — with at least one scorable cell,
`computer_use` tasks pass exactly when the score is 1.0 and all other modes
pass exactly when the score is at least 0.9 (so a tool-mode run scoring 0.90
passes there and one scoring 0.89 fails) — while the top-level
`src/grader.py:grade_task_run` requires `score == 1.0` for every mode. -/
theorem eval_grader_mode_threshold (mode : String) (total correct : Nat)
    (errors : List String) (h : 0 < total) :
    ((EvalGrader.finalize mode total correct errors).passed = true ↔
      (if mode = "computer_use" then (correct : ℚ) / (total : ℚ) = 1
       else 9/10 ≤ (correct : ℚ) / (total : ℚ))) ∧
    ((Grader.finalize total correct errors).passed = true ↔
      (correct : ℚ) / (total : ℚ) = 1) ∧
    (EvalGrader.finalize "tool_use" 100 90 []).passed = true ∧
    (EvalGrader.finalize "tool_use" 100 89 []).passed = false ∧
    (EvalGrader.finalize "computer_use" 100 100 []).passed = true ∧
    (EvalGrader.finalize "computer_use" 100 95 []).passed = false ∧
    (EvalGrader.grade_task_run intFloat noSympy envToolNinety (1/100)).passed = true := by
  have ht : total ≠ 0 := Nat.pos_iff_ne_zero.mp h
  refine ⟨?_, ?_, by with_unfolding_all decide, by with_unfolding_all decide, by with_unfolding_all decide, by with_unfolding_all decide, by with_unfolding_all decide⟩
  · by_cases hm : mode = "computer_use" <;>
      simp [EvalGrader.finalize, ht, hm]
  · simp [Grader.finalize, ht]

/-- Witness for the amended C1 at a concrete tool-mode run scoring 0.90. -/
theorem eval_grader_mode_threshold_witness :
    (0 < 10) ∧
    (((EvalGrader.finalize "tool_use" 10 9 []).passed = true ↔
      (if ("tool_use" : String) = "computer_use" then (9 : ℚ) / (10 : ℚ) = 1
       else 9/10 ≤ (9 : ℚ) / (10 : ℚ))) ∧
    ((Grader.finalize 10 9 []).passed = true ↔ (9 : ℚ) / (10 : ℚ) = 1) ∧
    (EvalGrader.finalize "tool_use" 100 90 []).passed = true ∧
    (EvalGrader.finalize "tool_use" 100 89 []).passed = false ∧
    (EvalGrader.finalize "computer_use" 100 100 []).passed = true ∧
    (EvalGrader.finalize "computer_use" 100 95 []).passed = false ∧
    (EvalGrader.grade_task_run intFloat noSympy envToolNinety (1/100)).passed = true) :=
  ⟨by norm_num, eval_grader_mode_threshold "tool_use" 10 9 [] (by norm_num)⟩

/-- Claim C7 (counterexample): `compare_numeric(a, a, t)` is not true for
every tolerance — the comparison is strict, so at tolerance 0 a numeric
string does not compare equal to itself. -/
theorem compare_numeric_refl_counterexample :
    compare_numeric intFloat "1" "1" 0 = false ∧ intFloat "1" = some 1 := by
  with_unfolding_all decide

/-- Claim C7 (amended): for every strictly positive tolerance `t` and numeric
string `a`, `compare_numeric(a, a, t)` is true; and for a numeric pair
`(a, b)` whose reference value `b` is nonzero and whose relative difference
`|(a - b) / b|` exceeds `t`, `compare_numeric(a, b, t)` is false. -/
theorem compare_numeric_tolerance (pf : String → Option ℚ) (a b : String)
    (t q n1 n2 : ℚ) :
    (pf a = some q → 0 < t → compare_numeric pf a a t = true) ∧
    (pf a = some n1 → pf b = some n2 → n2 ≠ 0 → t < |(n1 - n2) / n2| →
      compare_numeric pf a b t = false) := by
  constructor
  · intro hq ht
    unfold compare_numeric
    rw [hq]
    by_cases h0 : q = 0 <;> simp [h0, ht]
  · intro h1 h2 hn2 hlt
    unfold compare_numeric
    rw [h1, h2]
    simp [hn2]
    linarith

/-- Witness for the amended C7: a positive tolerance accepts a numeric string
against itself, and rejects a pair whose relative difference exceeds it. -/
theorem compare_numeric_tolerance_witness :
    compare_numeric intFloat "7" "7" (1/100) = true ∧
    compare_numeric intFloat "1" "2" (1/100) = false :=
  ⟨(compare_numeric_tolerance intFloat "7" "2" (1/100) 7 0 0).1 (by decide) (by norm_num),
   (compare_numeric_tolerance intFloat "1" "2" (1/100) 0 1 2).2 (by decide) (by decide)
     (by norm_num)
     (by rw [show ((1:ℚ) - 2) / 2 = -(1/2) by ring, abs_neg,
           abs_of_pos (by norm_num : (0:ℚ) < 1/2)]
         norm_num)⟩

/-- Claim C10: in every result produced with `total_cells > 0` (by either
grader), the reported `score` is the unrounded ratio `correct/total` rounded
to 3 decimal places, while `passed` is decided on the unrounded ratio; hence
a ratio strictly between 0.9995 and 1 — e.g. 2000/2001 — reports
`score = 1.0` with `passed = false`. -/
theorem score_rounded_passed_unrounded (mode : String) (total correct : Nat)
    (errors : List String) (h : 0 < total) :
    (Grader.finalize total correct errors).score =
      pyRound3 ((correct : ℚ) / (total : ℚ)) ∧
    ((Grader.finalize total correct errors).passed = true ↔
      (correct : ℚ) / (total : ℚ) = 1) ∧
    (EvalGrader.finalize mode total correct errors).score =
      pyRound3 ((correct : ℚ) / (total : ℚ)) ∧
    ((EvalGrader.finalize mode total correct errors).passed = true ↔
      (if mode = "computer_use" then (correct : ℚ) / (total : ℚ) = 1
       else 9/10 ≤ (correct : ℚ) / (total : ℚ))) ∧
    (9995/10000 : ℚ) < 2000/2001 ∧ (2000/2001 : ℚ) < 1 ∧
    (Grader.finalize 2001 2000 []).score = 1 ∧
    (Grader.finalize 2001 2000 []).passed = false := by
  have ht : total ≠ 0 := Nat.pos_iff_ne_zero.mp h
  refine ⟨?_, ?_, ?_, ?_, by norm_num, by norm_num, by with_unfolding_all decide, by with_unfolding_all decide⟩
  · simp [Grader.finalize, ht]
  · simp [Grader.finalize, ht]
  · by_cases hm : mode = "computer_use" <;> simp [EvalGrader.finalize, ht, hm]
  · by_cases hm : mode = "computer_use" <;> simp [EvalGrader.finalize, ht, hm]

/-- Witness for C10 at a concrete reported result. -/
theorem score_rounded_passed_unrounded_witness :
    (0 < 4) ∧
    ((Grader.finalize 4 3 []).score = pyRound3 ((3 : ℚ) / (4 : ℚ)) ∧
    ((Grader.finalize 4 3 []).passed = true ↔ (3 : ℚ) / (4 : ℚ) = 1) ∧
    (EvalGrader.finalize "tool_use" 4 3 []).score = pyRound3 ((3 : ℚ) / (4 : ℚ)) ∧
    ((EvalGrader.finalize "tool_use" 4 3 []).passed = true ↔
      (if ("tool_use" : String) = "computer_use" then (3 : ℚ) / (4 : ℚ) = 1
       else 9/10 ≤ (3 : ℚ) / (4 : ℚ))) ∧
    (9995/10000 : ℚ) < 2000/2001 ∧ (2000/2001 : ℚ) < 1 ∧
    (Grader.finalize 2001 2000 []).score = 1 ∧
    (Grader.finalize 2001 2000 []).passed = false) :=
  ⟨by norm_num, score_rounded_passed_unrounded "tool_use" 4 3 [] (by norm_num)⟩

/-- Claim C2 (counterexample): start a fresh manager with a 1-second deadline
and let the watchdog fire without ever calling `stop_container`.  The handle
is marked timed-out and the kill happened exactly once, but the handle is NOT
absent: `self.container` and `self.container_id` are still set (the timeout
handler kills the container without clearing the manager's fields). -/
theorem watchdog_handle_not_absent_counterexample :
    (smRun SMState.init [SMEvent.start "c0" (some 1), SMEvent.fire]).timed_out = true ∧
    (smRun SMState.init [SMEvent.start "c0" (some 1), SMEvent.fire]).kills = 1 ∧
    (smRun SMState.init [SMEvent.start "c0" (some 1), SMEvent.fire]).container =
      some { running := false } ∧
    (smRun SMState.init [SMEvent.start "c0" (some 1), SMEvent.fire]).container_id =
      some "c0" := by
  decide

/-- Claim C2 (amended): starting a fresh manager with a positive deadline and
never calling stop, the watchdog fire kills the environment exactly once
(a late duplicate fire is a no-op) and marks the handle timed-out, and the
container is no longer running — but the handle remains held (container and
container id stay set) until `stop_container` clears it. -/
theorem watchdog_fire_once (cid : String) (t : Int) (s0 : SMState)
    (h0 : s0.container = none) (ht : 0 < t) :
    (timerFire (start_container cid (some t) s0)).timed_out = true ∧
    (timerFire (start_container cid (some t) s0)).kills = s0.kills + 1 ∧
    (timerFire (start_container cid (some t) s0)).container =
      some { running := false } ∧
    (timerFire (start_container cid (some t) s0)).container_id = some cid ∧
    timerFire (timerFire (start_container cid (some t) s0)) =
      timerFire (start_container cid (some t) s0) := by
  have hns : ¬ s0.container.isSome = true := by simp [h0]
  refine ⟨?_, ?_, ?_, ?_, ?_⟩ <;>
    simp [start_container, timerFire, stop_container, hns, ht]

/-- Witness for the amended C2 on a fresh manager with deadline 1. -/
theorem watchdog_fire_once_witness :
    SMState.init.container = none ∧ (0 : Int) < 1 ∧
    ((timerFire (start_container "c0" (some 1) SMState.init)).timed_out = true ∧
     (timerFire (start_container "c0" (some 1) SMState.init)).kills =
       SMState.init.kills + 1 ∧
     (timerFire (start_container "c0" (some 1) SMState.init)).container =
       some { running := false } ∧
     (timerFire (start_container "c0" (some 1) SMState.init)).container_id =
       some "c0" ∧
     timerFire (timerFire (start_container "c0" (some 1) SMState.init)) =
       timerFire (start_container "c0" (some 1) SMState.init)) :=
  ⟨rfl, by norm_num, watchdog_fire_once "c0" 1 SMState.init rfl (by norm_num)⟩

/-- Claim C4: in every manager state, `stop_container` cancels any pending
watchdog timer and always leaves the handle absent (container and container
id cleared) when it returns — including when `container.stop()` or
`container.remove()` raise (`stopRaises`/`removeRaises` arbitrary, the
`finally:` block runs regardless); it never performs a watchdog kill (the
ghost kill counter is unchanged, so a stop after a timeout-kill does not kill
again), and a second stop is a no-op. -/
theorem stop_clears_handle (s : SMState) (stopRaises removeRaises g1 g2 : Bool)
    (cid : String) (t : Int)
    (hinv : s.container = none → s.container_id = none) :
    (stop_container stopRaises removeRaises s).container = none ∧
    (stop_container stopRaises removeRaises s).container_id = none ∧
    (stop_container stopRaises removeRaises s).timerArmed = false ∧
    (stop_container stopRaises removeRaises s).kills = s.kills ∧
    stop_container stopRaises removeRaises (stop_container g1 g2 s) =
      stop_container g1 g2 s ∧
    (stop_container stopRaises removeRaises
        (timerFire (start_container cid (some t) s))).kills =
      (timerFire (start_container cid (some t) s)).kills ∧
    (stop_container stopRaises removeRaises
        (timerFire (start_container cid (some t) s))).container = none := by
  refine ⟨?_, ?_, ?_, ?_, ?_, ?_, ?_⟩ <;>
    cases hs : s.container <;>
    cases hs2 : (timerFire (start_container cid (some t) s)).container <;>
    simp_all [stop_container]

/-- Witness for C4 on a running manager whose watchdog has just killed the
container (the invariant hypothesis holds trivially on the fresh state). -/
theorem stop_clears_handle_witness :
    (SMState.init.container = none → SMState.init.container_id = none) ∧
    ((stop_container true false SMState.init).container = none ∧
     (stop_container true false SMState.init).container_id = none ∧
     (stop_container true false SMState.init).timerArmed = false ∧
     (stop_container true false SMState.init).kills = SMState.init.kills ∧
     stop_container true false (stop_container false false SMState.init) =
       stop_container false false SMState.init ∧
     (stop_container true false
         (timerFire (start_container "c0" (some 1) SMState.init))).kills =
       (timerFire (start_container "c0" (some 1) SMState.init)).kills ∧
     (stop_container true false
         (timerFire (start_container "c0" (some 1) SMState.init))).container = none) :=
  ⟨fun _ => rfl,
   stop_clears_handle SMState.init true false false false "c0" 1 (fun _ => rfl)⟩

/-- Claim C8: a new run directory is numbered by counting the task's
existing run subdirectories plus one (conjunct on arbitrary `g`, `u`);
starting three episodes for the same task sequentially from a task with no
existing runs yields run directories numbered 1, 2, 3 — strictly increasing —
named `run_001`, `run_002`, `run_003`, regardless of the contents of any
other task's directory (`otherTask` is untouched). -/
theorem episode_numbering (dirs : String → List String)
    (task otherTask : String) (g : String → List String) (u : String)
    (hempty : dirs task = []) (hother : otherTask ≠ task) :
    (setup_episode g u).1 = (g u).length + 1 ∧
    (setup_episode dirs task).1 = 1 ∧
    (setup_episode (setup_episode dirs task).2 task).1 = 2 ∧
    (setup_episode (setup_episode (setup_episode dirs task).2 task).2 task).1 = 3 ∧
    (setup_episode (setup_episode (setup_episode dirs task).2 task).2 task).2 task =
      ["run_001", "run_002", "run_003"] ∧
    (setup_episode (setup_episode (setup_episode dirs task).2 task).2 task).2 otherTask =
      dirs otherTask := by
  have step : ∀ (f : String → List String) (l : List String), f task = l →
      (setup_episode f task).1 = l.length + 1 ∧
      (setup_episode f task).2 task =
        (if l.contains ("run_" ++ pad3 (l.length + 1)) then l
         else l ++ ["run_" ++ pad3 (l.length + 1)]) ∧
      (setup_episode f task).2 otherTask = f otherTask := by
    intro f l hf
    refine ⟨?_, ?_, ?_⟩ <;> simp [setup_episode, hf, hother]
  have s1 := step dirs [] hempty
  have e1 : (setup_episode dirs task).2 task = ["run_001"] := by
    rw [s1.2.1]; with_unfolding_all decide
  have s2 := step _ _ e1
  have e2 : (setup_episode (setup_episode dirs task).2 task).2 task =
      ["run_001", "run_002"] := by
    rw [s2.2.1]; with_unfolding_all decide
  have s3 := step _ _ e2
  have e3 : (setup_episode (setup_episode (setup_episode dirs task).2 task).2 task).2
      task = ["run_001", "run_002", "run_003"] := by
    rw [s3.2.1]; with_unfolding_all decide
  refine ⟨rfl, ?_, ?_, ?_, e3, ?_⟩
  · rw [s1.1]; rfl
  · rw [s2.1]; rfl
  · rw [s3.1]; rfl
  · rw [s3.2.2, s2.2.2, s1.2.2]

/-- Witness for C8 from an empty runs directory. -/
theorem episode_numbering_witness :
    ((fun _ => ([] : List String)) "billing" = []) ∧ ("other" : String) ≠ "billing" ∧
    ((setup_episode (fun _ => ([] : List String)) "x").1 =
        ((fun _ => ([] : List String)) "x").length + 1 ∧
     (setup_episode (fun _ => ([] : List String)) "billing").1 = 1 ∧
     (setup_episode (setup_episode (fun _ => ([] : List String)) "billing").2
        "billing").1 = 2 ∧
     (setup_episode (setup_episode (setup_episode (fun _ => ([] : List String))
        "billing").2 "billing").2 "billing").1 = 3 ∧
     (setup_episode (setup_episode (setup_episode (fun _ => ([] : List String))
        "billing").2 "billing").2 "billing").2 "billing" =
       ["run_001", "run_002", "run_003"] ∧
     (setup_episode (setup_episode (setup_episode (fun _ => ([] : List String))
        "billing").2 "billing").2 "billing").2 "other" =
       (fun _ => ([] : List String)) "other") :=
  ⟨rfl, by decide,
   episode_numbering (fun _ => []) "billing" "other" (fun _ => []) "x" rfl (by decide)⟩

/-! ## Round-trip lemmas for `CellRef` -/

namespace CellRef

lemma toNat_ofNat_small (m : Nat) (h : m < 55296) : (Char.ofNat m).toNat = m := by
  simp [Char.ofNat, Char.ofNatAux, Char.toNat, Nat.isValidChar, h, UInt32.toNat]

lemma colLetters_mem (n : Nat) : ∀ c ∈ colLetters n, 65 ≤ c.toNat ∧ c.toNat ≤ 90 := by
  induction n using Nat.strong_induction_on with
  | _ n ih =>
    intro c hc
    rw [colLetters] at hc
    split at hc
    · simp at hc
    · rename_i h
      rcases List.mem_append.mp hc with h1 | h2
      · exact ih _ (Nat.lt_of_le_of_lt (Nat.div_le_self _ _)
          (Nat.sub_lt (Nat.pos_of_ne_zero h) (by omega))) c h1
      · have hlt : (n - 1) % 26 < 26 := Nat.mod_lt _ (by omega)
        simp at h2
        subst h2
        rw [toNat_ofNat_small _ (by omega)]
        omega

lemma lettersVal_append (cs : List Char) (c : Char) :
    lettersVal (cs ++ [c]) = 26 * lettersVal cs + (c.toNat - 65 + 1) := by
  induction cs with
  | nil => simp [lettersVal]
  | cons d cs ih =>
      show lettersVal (cs ++ [c]) + (d.toNat - 65 + 1) * 26 ^ (cs ++ [c]).length =
        26 * (lettersVal cs + (d.toNat - 65 + 1) * 26 ^ cs.length) +
          (c.toNat - 65 + 1)
      simp only [List.length_append, List.length_cons, List.length_nil]
      rw [ih, pow_succ]
      ring

lemma lettersVal_colLetters (n : Nat) : lettersVal (colLetters n) = n := by
  induction n using Nat.strong_induction_on with
  | _ n ih =>
    rw [colLetters]
    split
    · rename_i h; simp [lettersVal, h]
    · rename_i h
      rw [lettersVal_append, ih _ (Nat.lt_of_le_of_lt (Nat.div_le_self _ _)
          (Nat.sub_lt (Nat.pos_of_ne_zero h) (by omega))),
        toNat_ofNat_small _ (by omega)]
      have hlt : (n - 1) % 26 < 26 := Nat.mod_lt _ (by omega)
      omega

lemma digitsVal_append (ds : List Char) (c : Char) :
    digitsVal (ds ++ [c]) = digitsVal ds * 10 + (c.toNat - 48) := by
  simp [digitsVal, List.foldl_append]

lemma natDigits_mem (n : Nat) : ∀ c ∈ natDigits n, 48 ≤ c.toNat ∧ c.toNat ≤ 57 := by
  induction n using Nat.strong_induction_on with
  | _ n ih =>
    intro c hc
    rw [natDigits] at hc
    split at hc
    · simp at hc
    · rename_i h
      rcases List.mem_append.mp hc with h1 | h2
      · exact ih _ (Nat.div_lt_self (Nat.pos_of_ne_zero h) (by omega)) c h1
      · have hlt : n % 10 < 10 := Nat.mod_lt _ (by omega)
        simp at h2
        subst h2
        rw [toNat_ofNat_small _ (by omega)]
        omega

lemma digitsVal_natDigits (n : Nat) : digitsVal (natDigits n) = n := by
  induction n using Nat.strong_induction_on with
  | _ n ih =>
    rw [natDigits]
    split
    · rename_i h; simp [digitsVal, h]
    · rename_i h
      rw [digitsVal_append, ih _ (Nat.div_lt_self (Nat.pos_of_ne_zero h) (by omega)),
        toNat_ofNat_small _ (by omega)]
      have hlt : n % 10 < 10 := Nat.mod_lt _ (by omega)
      omega

lemma natDigits_ne_nil (n : Nat) (h : n ≠ 0) : natDigits n ≠ [] := by
  rw [natDigits]
  simp [h]

/-- The parse inverts the print on genuine (nonnegative) cell coordinates. -/
lemma from_a1_to_a1 (row col : Int) (hrow : 0 ≤ row) (hcol : 0 ≤ col) :
    from_a1 (to_a1 ⟨row, col⟩) = some ⟨row, col⟩ := by
  have hc1 : (col + 1).toNat = col.toNat + 1 := by omega
  have hintStr : (intStr (row + 1)).data = natDigits (row.toNat + 1) := by
    unfold intStr natStr
    rw [if_neg (by omega), show (row + 1).natAbs = row.toNat + 1 by omega,
      if_neg (by omega)]
  unfold to_a1 from_a1
  rw [hc1, hintStr]
  have hL := colLetters_mem (col.toNat + 1)
  have hD := natDigits_mem (row.toNat + 1)
  have hfa : ∀ c ∈ colLetters (col.toNat + 1), pyIsAlpha c = true := by
    intro c hc; have := hL c hc; simp [pyIsAlpha]; omega
  have hfd : ∀ c ∈ natDigits (row.toNat + 1), pyIsDigit c = true := by
    intro c hc; have := hD c hc; simp [pyIsDigit]; omega
  have hfa' : ∀ c ∈ natDigits (row.toNat + 1), ¬ pyIsAlpha c = true := by
    intro c hc; have := hD c hc; simp [pyIsAlpha]; omega
  have hfd' : ∀ c ∈ colLetters (col.toNat + 1), ¬ pyIsDigit c = true := by
    intro c hc; have := hL c hc; simp [pyIsDigit]; omega
  have hup : ∀ c ∈ colLetters (col.toNat + 1), pyUpper c = c := by
    intro c hc; have := hL c hc; simp [pyUpper]; omega
  simp only [String.data, List.filter_append]
  rw [List.filter_eq_self.mpr hfa, List.filter_eq_nil.mpr hfa',
    List.filter_eq_nil.mpr hfd', List.filter_eq_self.mpr hfd,
    List.append_nil, List.nil_append, List.map_congr_left hup]
  rw [show (fun c : Char => c) = id from rfl, List.map_id]
  rw [if_neg (natDigits_ne_nil _ (by omega)),
    digitsVal_natDigits, lettersVal_colLetters]
  simp only [Option.some.injEq, CellRef.mk.injEq]
  omega

end CellRef

/-- Claim C9: `CellRef` round-trips between A1 notation and 0-indexed
coordinates: `from_a1 "B5"` yields row 4, column 1; `to_a1 (4, 1)` yields
`"B5"`; column letters `"AA"` map to index 26; parsing the printed form of
any nonnegative coordinate pair returns that pair; and for every well-formed
A1 reference `r`, `to_a1 (from_a1 r) = r`. -/
theorem cellref_roundtrip (row col : Int) (r : String)
    (hrow : 0 ≤ row) (hcol : 0 ≤ col) (hr : WellFormedA1 r) :
    CellRef.from_a1 "B5" = some ⟨4, 1⟩ ∧
    CellRef.to_a1 ⟨4, 1⟩ = "B5" ∧
    CellRef.from_a1 "AA10" = some ⟨9, 26⟩ ∧
    CellRef.from_a1 (CellRef.to_a1 ⟨row, col⟩) = some ⟨row, col⟩ ∧
    (CellRef.from_a1 r).map CellRef.to_a1 = some r := by
  obtain ⟨r1, c1, hr1, hc1, heq⟩ := hr
  refine ⟨by with_unfolding_all decide, by with_unfolding_all decide,
    by with_unfolding_all decide, CellRef.from_a1_to_a1 row col hrow hcol, ?_⟩
  subst heq
  rw [CellRef.from_a1_to_a1 r1 c1 hr1 hc1]
  rfl

/-- Witness for C9 at the concrete reference `"B5"`. -/
theorem cellref_roundtrip_witness :
    (0 : Int) ≤ 4 ∧ (0 : Int) ≤ 1 ∧ WellFormedA1 "B5" ∧
    (CellRef.from_a1 "B5" = some ⟨4, 1⟩ ∧
     CellRef.to_a1 ⟨4, 1⟩ = "B5" ∧
     CellRef.from_a1 "AA10" = some ⟨9, 26⟩ ∧
     CellRef.from_a1 (CellRef.to_a1 ⟨4, 1⟩) = some ⟨4, 1⟩ ∧
     (CellRef.from_a1 "B5").map CellRef.to_a1 = some "B5") :=
  ⟨by norm_num, by norm_num,
   ⟨4, 1, by norm_num, by norm_num, by with_unfolding_all decide⟩,
   cellref_roundtrip 4 1 "B5" (by norm_num) (by norm_num)
     ⟨4, 1, by norm_num, by norm_num, by with_unfolding_all decide⟩⟩

end LOEnv
